import Mathlib

/-!
Verification of the Demographic-Aware Communication Hub (`src/main.py`).

The repository is a single-file Streamlit application.  The parts of it that
the specification makes checkable claims about are:

* `analyze_communication_style` — a pure keyword-count classifier;
* `generate_response` / `load_granite_model` — two wrappers around an external
  model whose error handling is specified;
* the session-state mutations performed by `main` (conversation history,
  user profiles, analytics records).

This file shallowly embeds those parts.  Python strings are modelled as Lean
`String` / `List Char`; Python's float average is modelled as the exact
rational quotient `ℚ`; exceptions of the external model calls are modelled by
`Except String`.
-/

namespace Hub

/-- Python `str.lower()` restricted to the ASCII texts the classifier uses:
lowercase every character. -/
def pyLower (s : String) : List Char := s.toList.map Char.toLower

/-- Python `w in t` for strings: `w` occurs as a contiguous substring of `t`.
The occurrence test scans every suffix of `t` for `w` as a prefix. -/
def containsSub (t w : List Char) : Bool :=
  (t.tails).any (fun suf => w.isPrefixOf suf)

/-- Number of occurrence positions of `w` in `t` (the number of suffixes of
`t` that start with `w`).  This is the spec-side "total number of occurrences"
notion used by claim C5; the code itself never computes it. -/
def occCount (t w : List Char) : Nat :=
  (t.tails).countP (fun suf => w.isPrefixOf suf)

/-- Python `text.split(sep)` for a one-character separator `matches p`:
split at every separator character, keeping empty pieces, and yielding
`[[]]` on the empty string — exactly CPython's behaviour for
`str.split` with an explicit separator. -/
def splitOnChar (p : Char → Bool) : List Char → List (List Char)
  | [] => [[]]
  | c :: rest =>
    if p c then [] :: splitOnChar p rest
    else
      match splitOnChar p rest with
      | [] => [c] :: []
      | w :: ws => (c :: w) :: ws

/-- Python `text.split('.')` as used at line 190 of `main.py`. -/
def splitDot (cs : List Char) : List (List Char) :=
  splitOnChar (fun c => c = '.') cs

/-- Python `len(s.split())`: number of maximal whitespace-free runs, i.e.
split at every whitespace character and count the non-empty pieces. -/
def pyWordCount (cs : List Char) : Nat :=
  ((splitOnChar (fun c => c.isWhitespace) cs).filter (fun w => !w.isEmpty)).length

/-- `sum(1 for word in ws if word in text.lower())` — each listed indicator
word contributes 1 when it occurs in the lowercased text, else 0. -/
def countIndicators (ws : List String) (text : String) : Nat :=
  ws.countP (fun w => containsSub (pyLower text) w.toList)

/-- `formal_indicators` (line 166 of `main.py`). -/
def formal_indicators : List String :=
  ["please", "thank you", "regards", "sincerely", "respectfully"]

/-- `informal_indicators` (line 167 of `main.py`). -/
def informal_indicators : List String :=
  ["hey", "yeah", "cool", "awesome", "thanks"]

/-- `positive_words` (line 178 of `main.py`). -/
def positive_words : List String :=
  ["great", "excellent", "wonderful", "amazing", "fantastic"]

/-- `negative_words` (line 179 of `main.py`). -/
def negative_words : List String :=
  ["bad", "terrible", "awful", "disappointing", "poor"]

/-- `formal_count` (line 169). -/
def formalCount (text : String) : Nat := countIndicators formal_indicators text

/-- `informal_count` (line 170). -/
def informalCount (text : String) : Nat := countIndicators informal_indicators text

/-- `positive_count` (line 181). -/
def positiveCount (text : String) : Nat := countIndicators positive_words text

/-- `negative_count` (line 182). -/
def negativeCount (text : String) : Nat := countIndicators negative_words text

/-- `avg_sentence_length` (line 191):
`sum(len(s.split()) for s in sentences) / len(sentences) if sentences else 0`,
with the float division modelled as the exact rational quotient. -/
def avg_sentence_length (text : String) : ℚ :=
  let sentences := splitDot text.toList
  if sentences ≠ [] then
    (((sentences.map pyWordCount).sum : ℚ)) / ((sentences.length : ℚ))
  else 0

/-- The dictionary returned by `analyze_communication_style`. -/
structure Analysis where
  formality : String
  tone : String
  complexity : String
  key_phrases : List String
  sentiment : String
  deriving Repr, DecidableEq

/-- `analyze_communication_style` (lines 155–198 of `main.py`).  The Python
function initialises every field to a default and conditionally overwrites
`formality`, `tone` and `complexity`; the same net result is expressed here
with conditionals. -/
def analyze_communication_style (text : String) : Analysis :=
  let formal_count := formalCount text
  let informal_count := informalCount text
  let positive_count := positiveCount text
  let negative_count := negativeCount text
  let avg := avg_sentence_length text
  { formality :=
      if formal_count > informal_count then "formal"
      else if informal_count > formal_count then "informal"
      else "neutral"
    tone :=
      if positive_count > negative_count then "positive"
      else if negative_count > positive_count then "negative"
      else "neutral"
    complexity :=
      if avg > 20 then "high"
      else if avg < 10 then "low"
      else "medium"
    key_phrases := []
    sentiment := "neutral" }

/-- What one call to `generate_response` produced: the string handed back to
the caller, and whether the call reached the model-generation step at all. -/
structure GenResult where
  response : String
  attempted_generation : Bool
  deriving Repr, DecidableEq

/-- `generate_response` (lines 110–153 of `main.py`).  The body of the `try`
block — chat-template application, `model.generate`, decode — is a call into
the external model stack; it is abstracted as `generation :
Except String String`, with `Except.ok r` when the pipeline returns text `r`
and `Except.error e` when it raises an exception whose `str` is `e`.
When the model is not loaded the function returns `"Model not available"`
before entering the `try` block; on success the decoded text is stripped
(`response.strip()`); on exception the handler returns
`f"Error generating response: \x7bstr(e)\x7d"`. -/
def generate_response (model_loaded : Bool) (generation : Except String String) : GenResult :=
  if model_loaded = false then
    { response := "Model not available", attempted_generation := false }
  else
    match generation with
    | Except.ok r => { response := r.trim, attempted_generation := true }
    | Except.error e =>
        { response := "Error generating response: " ++ e, attempted_generation := true }

/-- What `load_granite_model` leaves behind: the components it returned
(`none` models the Python `(None, None, None)` triple) and the error message
shown to the user, when any. -/
structure LoadResult (C : Type) where
  components : Option C
  shown_error : Option String

/-- `load_granite_model` (lines 93–108 of `main.py`).  The
tokenizer/model/device construction inside the `try` block is external and is
abstracted as `attempt : Except String C`; on exception `e` the handler calls
`st.error(f"Error loading model: \x7bstr(e)\x7d")` and returns
`(None, None, None)` instead of raising. -/
def load_granite_model (C : Type) (attempt : Except String C) : LoadResult C :=
  match attempt with
  | Except.ok c => { components := some c, shown_error := none }
  | Except.error e =>
      { components := none, shown_error := some ("Error loading model: " ++ e) }

/-- The demographics dictionary built by the Demographic Profiler feature. -/
structure Demographics where
  age_group : String
  education : String
  profession : String
  location : String
  tech_savviness : Nat
  communication_preference : String

/-- A saved user profile (`st.session_state.user_profiles[name]`, line 342). -/
structure UserProfile where
  demographics : Demographics
  cultural_notes : String
  analysis : String
  created : Nat

/-- One conversation-history record (`st.session_state.conversation_history`,
appended at line 286 of `main.py`). -/
structure ConversationRecord where
  timestamp : Nat
  original : String
  optimized : String
  demographics : List String
  msg_type : String

/-- `analysis_text[:100] + "..." if len(analysis_text) > 100 else
analysis_text` (line 696 of `main.py`). -/
def truncate_text (s : String) : String :=
  if s.length > 100 then s.take 100 ++ "..." else s

/-- One analytics record (`st.session_state.communication_analytics`,
appended at line 695 of `main.py`). -/
structure AnalyticsRecord where
  text : String
  analysis : String
  metrics : Analysis
  timestamp : Nat

/-- The per-process Streamlit session state initialised at lines 84–91 of
`main.py`.  The user-profile dictionary is modelled as a name-keyed map. -/
structure SessionState where
  model_loaded : Bool
  conversation_history : List ConversationRecord
  user_profiles : String → Option UserProfile
  communication_analytics : List AnalyticsRecord

/-- `st.session_state` at process start (lines 84–91). -/
def initialState : SessionState :=
  { model_loaded := false
    conversation_history := []
    user_profiles := fun _ => none
    communication_analytics := [] }

/-- The UI operations of `main` that can touch session state, one constructor
per submission path.  External inputs of each path (form fields, the model
call's outcome, the wall clock) are the constructor's payload. -/
inductive UIEvent where
  /-- The model-loading block at lines 205–211. -/
  | loadModel (attempt : Except String Unit)
  /-- Feature 1, "Optimize Message" button (lines 267–292). -/
  | composeOptimize (user_input : String) (target_demographic : List String)
      (message_type : String) (generation : Except String String) (now : Nat)
  /-- Feature 2, "Generate Profile Analysis" button (lines 320–347). -/
  | generateProfile (profile_name : String) (demographics : Demographics)
      (cultural_notes : String) (generation : Except String String) (now : Nat)
  /-- Feature 3, "Get Suggestions" button (lines 408–427): display only. -/
  | getSuggestions (message : String) (generation : Except String String)
  /-- Feature 3, "Analyze Tone" button (lines 430–442): display only. -/
  | analyzeTone (message : String)
  /-- Feature 4, the analytics dashboard (lines 445–523): read only. -/
  | viewAnalytics
  /-- Feature 5, "Generate Cultural Adaptations" (lines 568–590): display only. -/
  | culturalAdapt (message : String) (generation : Except String String)
  /-- Feature 6, "Analyze Message" button (lines 625–700). -/
  | analyzeMessage (analysis_text : String) (generation : Except String String) (now : Nat)

/-- One UI interaction applied to the session state, mirroring the state
mutations of `main` (lines 201–700 of `main.py`).  Paths that only render
widgets leave the state unchanged; the guarded paths mutate exactly the
fields the Python code assigns. -/
def step (ev : UIEvent) (s : SessionState) : SessionState :=
  match ev with
  | .loadModel attempt =>
      if ¬ s.model_loaded ∧ (load_granite_model Unit attempt).components.isSome then
        { s with model_loaded := true }
      else s
  | .composeOptimize user_input target_demographic message_type generation now =>
      if user_input ≠ "" ∧ s.model_loaded then
        { s with conversation_history := s.conversation_history ++
            [{ timestamp := now
               original := user_input
               optimized := (generate_response s.model_loaded generation).response
               demographics := target_demographic
               msg_type := message_type }] }
      else s
  | .generateProfile profile_name demographics cultural_notes generation now =>
      if profile_name ≠ "" ∧ s.model_loaded then
        { s with user_profiles := fun n =>
            if n = profile_name then
              some { demographics := demographics
                     cultural_notes := cultural_notes
                     analysis := (generate_response s.model_loaded generation).response
                     created := now }
            else s.user_profiles n }
      else s
  | .getSuggestions _ _ => s
  | .analyzeTone _ => s
  | .viewAnalytics => s
  | .culturalAdapt _ _ => s
  | .analyzeMessage analysis_text generation now =>
      if analysis_text ≠ "" ∧ s.model_loaded then
        { s with communication_analytics := s.communication_analytics ++
            [{ text := truncate_text analysis_text
               analysis := (generate_response s.model_loaded generation).response
               metrics := analyze_communication_style analysis_text
               timestamp := now }] }
      else s

/-! ### Helper lemmas -/

/-- Shape of the two count-comparison assignments in
`analyze_communication_style`: with three pairwise-distinct labels, each
label of the three-way conditional characterises one side of the
trichotomy on the counts. -/
theorem three_way_if (a b : Nat) (x y z : String)
    (hxy : x ≠ y) (hxz : x ≠ z) (hyz : y ≠ z) :
    ((if a > b then x else if b > a then y else z) = x ↔ b < a) ∧
    ((if a > b then x else if b > a then y else z) = y ↔ a < b) ∧
    ((if a > b then x else if b > a then y else z) = z ↔ a = b) := by
  rcases Nat.lt_trichotomy a b with h | h | h
  · rw [if_neg (by omega), if_pos (by omega)]
    exact ⟨iff_of_false (fun e => hxy e.symm) (by omega),
           iff_of_true rfl h,
           iff_of_false hyz (by omega)⟩
  · rw [if_neg (by omega), if_neg (by omega)]
    exact ⟨iff_of_false (fun e => hxz e.symm) (by omega),
           iff_of_false (fun e => hyz e.symm) (by omega),
           iff_of_true rfl h⟩
  · rw [if_pos (by omega)]
    exact ⟨iff_of_true rfl h,
           iff_of_false hxy (by omega),
           iff_of_false hxz (by omega)⟩

/-- The substring test succeeds exactly when the occurrence count is
positive. -/
theorem containsSub_iff (t w : List Char) :
    containsSub t w = true ↔ 0 < occCount t w := by
  unfold containsSub occCount
  rw [List.any_eq_true, List.countP_pos_iff]

/-- Boolean form of `containsSub_iff`. -/
theorem containsSub_eq_decide (t w : List Char) :
    containsSub t w = decide (0 < occCount t w) := by
  cases hcs : containsSub t w
  · have hn : ¬ 0 < occCount t w := fun hp => by
      rw [(containsSub_iff t w).mpr hp] at hcs
      exact Bool.noConfusion hcs
    simp [hn]
  · simp [(containsSub_iff t w).mp hcs]

/-- Splitting never yields the empty list of pieces: there is always at least
one (possibly empty) piece. -/
theorem splitOnChar_ne_nil (p : Char → Bool) : ∀ cs : List Char, splitOnChar p cs ≠ []
  | [] => by simp [splitOnChar]
  | c :: rest => by
    rw [splitOnChar]
    by_cases h : p c
    · simp [h]
    · rcases hs : splitOnChar p rest with _ | ⟨w, ws⟩ <;> simp [h, hs]

/-- `avg_sentence_length` unfolded on the always-taken branch of its guard. -/
theorem avg_sentence_length_eq (text : String) :
    avg_sentence_length text =
      (((splitDot text.toList).map pyWordCount).sum : ℚ) /
        ((splitDot text.toList).length : ℚ) := by
  have h : avg_sentence_length text =
      if splitDot text.toList ≠ [] then
        (((splitDot text.toList).map pyWordCount).sum : ℚ) /
          ((splitDot text.toList).length : ℚ)
      else 0 := rfl
  have hne : splitDot text.toList ≠ [] := splitOnChar_ne_nil _ _
  rw [h, if_pos hne]

/-- On the empty text the guard denominator is `1` and the average is `0`. -/
theorem avg_sentence_length_empty : avg_sentence_length "" = 0 := by
  rw [avg_sentence_length_eq]
  have h1 : splitDot ("" : String).toList = [[]] := rfl
  rw [h1]
  norm_num [pyWordCount, splitOnChar]

/-- The `formality` field of the result, read off the definition. -/
theorem analysis_formality (text : String) :
    (analyze_communication_style text).formality =
      (if formalCount text > informalCount text then "formal"
       else if informalCount text > formalCount text then "informal"
       else "neutral") := rfl

/-- The `tone` field of the result, read off the definition. -/
theorem analysis_tone (text : String) :
    (analyze_communication_style text).tone =
      (if positiveCount text > negativeCount text then "positive"
       else if negativeCount text > positiveCount text then "negative"
       else "neutral") := rfl

/-- The `complexity` field of the result, read off the definition. -/
theorem analysis_complexity (text : String) :
    (analyze_communication_style text).complexity =
      (if avg_sentence_length text > 20 then "high"
       else if avg_sentence_length text < 10 then "low"
       else "medium") := rfl

/-! ### Claims -/

/-- Claim C1: for every input text, `analyze_communication_style` reports
formality `"formal"` exactly when the formal-indicator count exceeds the
informal-indicator count, `"informal"` exactly when the informal count
exceeds the formal count, and `"neutral"` exactly when the two are equal. -/
theorem formality_three_way (text : String) :
    ((analyze_communication_style text).formality = "formal" ↔
      informalCount text < formalCount text) ∧
    ((analyze_communication_style text).formality = "informal" ↔
      formalCount text < informalCount text) ∧
    ((analyze_communication_style text).formality = "neutral" ↔
      formalCount text = informalCount text) := by
  rw [analysis_formality]
  exact three_way_if (formalCount text) (informalCount text)
    "formal" "informal" "neutral" (by decide) (by decide) (by decide)

/-- Claim C2: `analyze_communication_style` reports complexity `"high"`
exactly when the average words-per-sentence is strictly greater than 20,
`"low"` exactly when it is strictly less than 10, and `"medium"` exactly on
the closed interval `[10, 20]` — so the boundary averages 10 and 20 map to
`"medium"`. -/
theorem complexity_thresholds (text : String) :
    ((analyze_communication_style text).complexity = "high" ↔
      20 < avg_sentence_length text) ∧
    ((analyze_communication_style text).complexity = "low" ↔
      avg_sentence_length text < 10) ∧
    ((analyze_communication_style text).complexity = "medium" ↔
      10 ≤ avg_sentence_length text ∧ avg_sentence_length text ≤ 20) := by
  rw [analysis_complexity]
  by_cases h1 : avg_sentence_length text > 20
  · rw [if_pos h1]
    refine ⟨iff_of_true rfl h1, iff_of_false (by decide) (by linarith),
      iff_of_false (by decide) ?_⟩
    rintro ⟨-, h⟩
    linarith
  · rw [if_neg h1]
    by_cases h2 : avg_sentence_length text < 10
    · rw [if_pos h2]
      refine ⟨iff_of_false (by decide) h1, iff_of_true rfl h2,
        iff_of_false (by decide) ?_⟩
      rintro ⟨h, -⟩
      linarith
    · rw [if_neg h2]
      push_neg at h1 h2
      exact ⟨iff_of_false (by decide) (not_lt.mpr h1),
        iff_of_false (by decide) (not_lt.mpr h2),
        iff_of_true rfl ⟨h2, h1⟩⟩

/-- Claim C3: for every input text, `analyze_communication_style` reports
tone `"positive"` exactly when the positive-word count exceeds the
negative-word count, `"negative"` exactly when the negative count exceeds the
positive count, and `"neutral"` exactly when the counts are equal — the same
tie-break rule as formality. -/
theorem tone_three_way (text : String) :
    ((analyze_communication_style text).tone = "positive" ↔
      negativeCount text < positiveCount text) ∧
    ((analyze_communication_style text).tone = "negative" ↔
      positiveCount text < negativeCount text) ∧
    ((analyze_communication_style text).tone = "neutral" ↔
      positiveCount text = negativeCount text) := by
  rw [analysis_tone]
  exact three_way_if (positiveCount text) (negativeCount text)
    "positive" "negative" "neutral" (by decide) (by decide) (by decide)

/-- Claim C4, counterexample: on the empty text the complexity bucket is not
`"medium"` — the average is `0`, which falls in the strictly-less-than-10
branch. -/
theorem empty_text_complexity_not_medium :
    ¬ ((analyze_communication_style "").complexity = "medium") := by
  rw [analysis_complexity, avg_sentence_length_empty]
  rw [if_neg (by norm_num), if_pos (by norm_num)]
  decide

/-- Claim C4, amended: on the empty text no division by zero occurs — the
split produces the single empty sentence, so the denominator is `1` and the
average is `0` — and the resulting complexity bucket is `"low"`. -/
theorem empty_text_complexity_low :
    (analyze_communication_style "").complexity = "low" ∧
    splitDot ("" : String).toList = [[]] ∧
    avg_sentence_length "" = 0 := by
  refine ⟨?_, rfl, avg_sentence_length_empty⟩
  rw [analysis_complexity, avg_sentence_length_empty]
  rw [if_neg (by norm_num), if_pos (by norm_num)]

/-- Claim C5, counterexample: on the text `"please please"` the word
`"please"` occurs twice, so the claimed occurrence-total formal score would
be `2`, but the computed formal score is `1`: each indicator word contributes
at most once. -/
theorem occurrence_total_mismatch :
    formalCount "please please" = 1 ∧
    (formal_indicators.map
      (fun w => occCount (pyLower "please please") w.toList)).sum = 2 := by
  exact ⟨by decide, by decide⟩

/-- Claim C5, amended: each score equals the number of hard-coded indicator
words that occur at least once in the lowercased text — an indicator
appearing `k ≥ 1` times contributes `1`, not `k`. -/
theorem scores_count_present_indicators (text : String) :
    formalCount text =
      formal_indicators.countP
        (fun w => decide (0 < occCount (pyLower text) w.toList)) ∧
    informalCount text =
      informal_indicators.countP
        (fun w => decide (0 < occCount (pyLower text) w.toList)) ∧
    positiveCount text =
      positive_words.countP
        (fun w => decide (0 < occCount (pyLower text) w.toList)) ∧
    negativeCount text =
      negative_words.countP
        (fun w => decide (0 < occCount (pyLower text) w.toList)) := by
  refine ⟨?_, ?_, ?_, ?_⟩ <;>
  · simp only [formalCount, informalCount, positiveCount, negativeCount,
      countIndicators]
    congr 1
    funext w
    exact containsSub_eq_decide _ _

/-- Claim C6: when the model is loaded and the generation step raises an
exception with text `e`, `generate_response` catches it and returns the
error text prefixed with `"Error generating response: "` as its result,
instead of propagating the exception. -/
theorem generation_error_returned (e : String) :
    (generate_response true (Except.error e)).response =
      "Error generating response: " ++ e ∧
    (generate_response true (Except.error e)).attempted_generation = true :=
  ⟨rfl, rfl⟩

/-- Claim C7: with `model_loaded` false, every `generate_response` call
returns `"Model not available"` without attempting generation; and when the
load step raises an exception with text `e`, `load_granite_model` surfaces a
user-visible `"Error loading model: ..."` message and returns no components
rather than raising. -/
theorem model_unavailable_degraded (gen : Except String String) (e : String) :
    (generate_response false gen).response = "Model not available" ∧
    (generate_response false gen).attempted_generation = false ∧
    (load_granite_model Unit (Except.error e)).components = none ∧
    (load_granite_model Unit (Except.error e)).shown_error =
      some ("Error loading model: " ++ e) :=
  ⟨rfl, rfl, rfl, rfl⟩

/-- Claim C8: every UI operation either leaves the conversation history
unchanged or appends exactly one record at its end; consequently the old
history is always a prefix of the new one, so previously stored records keep
their contents and positions and are never deleted. -/
theorem conversation_history_append_only (ev : UIEvent) (s : SessionState) :
    s.conversation_history <+: (step ev s).conversation_history ∧
    ((step ev s).conversation_history = s.conversation_history ∨
      ∃ r, (step ev s).conversation_history = s.conversation_history ++ [r]) := by
  cases ev with
  | loadModel attempt =>
      simp only [step]
      split <;> exact ⟨List.prefix_refl _, Or.inl rfl⟩
  | composeOptimize user_input target_demographic message_type generation now =>
      simp only [step]
      split
      · exact ⟨⟨_, rfl⟩, Or.inr ⟨_, rfl⟩⟩
      · exact ⟨List.prefix_refl _, Or.inl rfl⟩
  | generateProfile profile_name demographics cultural_notes generation now =>
      simp only [step]
      split <;> exact ⟨List.prefix_refl _, Or.inl rfl⟩
  | getSuggestions message generation => exact ⟨List.prefix_refl _, Or.inl rfl⟩
  | analyzeTone message => exact ⟨List.prefix_refl _, Or.inl rfl⟩
  | viewAnalytics => exact ⟨List.prefix_refl _, Or.inl rfl⟩
  | culturalAdapt message generation => exact ⟨List.prefix_refl _, Or.inl rfl⟩
  | analyzeMessage analysis_text generation now =>
      simp only [step]
      split <;> exact ⟨List.prefix_refl _, Or.inl rfl⟩

/-- Claim C9: `analyze_communication_style` returns sentiment `"neutral"`
and an empty `key_phrases` list on every input: no branch of the function
updates these two fields after their initialisation. -/
theorem sentiment_and_key_phrases_constant (text : String) :
    (analyze_communication_style text).sentiment = "neutral" ∧
    (analyze_communication_style text).key_phrases = ([] : List String) :=
  ⟨rfl, rfl⟩

/-- Claim C10: splitting any text on `'.'` yields at least one sentence, so
the denominator of the average-sentence-length division is at least `1`, the
division never divides by zero, and the guarded else-branch returning `0` is
unreachable: the average always equals the quotient of the word-count sum by
the sentence count. -/
theorem sentence_split_nonempty (text : String) :
    splitDot text.toList ≠ [] ∧
    1 ≤ (splitDot text.toList).length ∧
    avg_sentence_length text =
      (((splitDot text.toList).map pyWordCount).sum : ℚ) /
        ((splitDot text.toList).length : ℚ) := by
  have h : splitDot text.toList ≠ [] := splitOnChar_ne_nil _ _
  exact ⟨h, List.length_pos.mpr h, avg_sentence_length_eq text⟩

end Hub
